import Mathlib

/-!
# BioGenie core: similarity-search retrieval and chat-session persistence

A shallow embedding of the two core subsystems of the BioGenie repository:

* the `match_rag_chunks` similarity-search RPC of `backend/schema.sql`
  (pgvector cosine distance is abstracted as a caller-supplied distance
  function `dist`, since the `<=>` operator is external to the schema);
* the localStorage-backed chat-session store of
  `frontend/src/components/ChatHistorySidebar.jsx`
  (`getAllSessions`, `setAllSessions`, `saveSession`, `loadSession`,
  the delete handler's store effect, and the sidebar's filter-and-sort);
* the orchestrating `persistChat` / `sendQuestion` round of the feature
  screens (DoubtSolver et al.), and the Supabase-backed `sendQuestion`
  of `DoubtSolver.jsx` over the `user_chats` / `chat_messages` tables.

Strings model JS strings; `String.length`/`.data` take the place of JS
`length`/indexing (JS counts UTF-16 units, Lean counts characters — the
claims under study are insensitive to this difference).  Timestamps are
`Nat` values injected by the caller (`new Date(...)`), and fresh ids
(`uid()`, `gen_random_uuid()`) are likewise injected parameters.
-/

namespace BioGenie

/-! ## Similarity search: `match_rag_chunks` (backend/schema.sql) -/

/-- A row of the `biotech_rag_chunks` table (`created_at` omitted: it is
never read by the similarity search).  The embedding type is a parameter;
the schema fixes it to `vector(384)`. -/
structure RagChunk (α : Type) where
  id : Int
  class_level : String
  chapter : String
  content_chunk : String
  embedding : α
  source_pdf : String
  deriving DecidableEq

/-- A row of the table returned by `match_rag_chunks`. -/
structure MatchResult where
  id : Int
  content_chunk : String
  chapter : String
  class_level : String
  source_pdf : String
  similarity : ℚ
  deriving DecidableEq

/-- The WHERE clause of `match_rag_chunks`:
`1 - (embedding <=> query_embedding) > match_threshold`
`and (p_class_level is null or class_level = p_class_level)`. -/
def rowEligible {α : Type} (dist : α → α → ℚ) (query_embedding : α)
    (match_threshold : ℚ) (p_class_level : Option String) (c : RagChunk α) : Bool :=
  decide (match_threshold < 1 - dist c.embedding query_embedding) &&
    (match p_class_level with
     | none => true
     | some p => decide (c.class_level = p))

/-- The SELECT list of `match_rag_chunks`: projected columns plus
`1 - (embedding <=> query_embedding) as similarity`. -/
def toMatchResult {α : Type} (dist : α → α → ℚ) (query_embedding : α)
    (c : RagChunk α) : MatchResult :=
  { id := c.id
    content_chunk := c.content_chunk
    chapter := c.chapter
    class_level := c.class_level
    source_pdf := c.source_pdf
    similarity := 1 - dist c.embedding query_embedding }

/-- Insert into a sorted list, keeping earlier elements first among equals. -/
def insertLe {α : Type} (le : α → α → Bool) (x : α) : List α → List α
  | [] => [x]
  | y :: ys => if le x y then x :: y :: ys else y :: insertLe le x ys

/-- Stable insertion sort, used to give the SQL `order by` a concrete
executable refinement. -/
def insertionSort {α : Type} (le : α → α → Bool) : List α → List α
  | [] => []
  | x :: xs => insertLe le x (insertionSort le xs)

/-- Executable refinement of `match_rag_chunks`: filter by the WHERE
clause, `order by embedding <=> query_embedding` (here: a stable sort on
distance), `limit match_count`, and project the SELECT list.  The SQL
leaves the relative order of equal-distance rows open; this refinement
picks table order.  `matchRel` below captures the full set of outputs the
SQL permits. -/
def match_rag_chunks {α : Type} (dist : α → α → ℚ) (table : List (RagChunk α))
    (query_embedding : α) (match_threshold : ℚ) (match_count : Nat)
    (p_class_level : Option String) : List MatchResult :=
  ((insertionSort
      (fun a b => decide (dist a.embedding query_embedding ≤ dist b.embedding query_embedding))
      (table.filter (rowEligible dist query_embedding match_threshold p_class_level))).take
    match_count).map (toMatchResult dist query_embedding)

/-- Sortedness in the sense of the `order by embedding <=> query_embedding`
clause: pairwise non-decreasing distance to the query. -/
def sortedByDist {α : Type} (dist : α → α → ℚ) (query_embedding : α)
    (l : List (RagChunk α)) : Prop :=
  l.Pairwise (fun a b => dist a.embedding query_embedding ≤ dist b.embedding query_embedding)

/-- Declarative semantics of `match_rag_chunks`: `out` is a permissible
output iff it is the projection of the first `match_count` rows of SOME
distance-sorted permutation of the WHERE-filtered table.  SQL's
`order by` fixes only the key order, so rows at equal distance may appear
in any relative order. -/
def matchRel {α : Type} (dist : α → α → ℚ) (table : List (RagChunk α))
    (query_embedding : α) (match_threshold : ℚ) (match_count : Nat)
    (p_class_level : Option String) (out : List MatchResult) : Prop :=
  ∃ l : List (RagChunk α),
    (table.filter (rowEligible dist query_embedding match_threshold p_class_level)).Perm l ∧
    sortedByDist dist query_embedding l ∧
    out = (l.take match_count).map (toMatchResult dist query_embedding)

/-! ## Chat messages and sessions (ChatHistorySidebar.jsx data model) -/

/-- JS message field `from`: either "user" or "bot". -/
inductive Sender where
  | user
  | bot
  deriving DecidableEq

/-- A chat message as the feature screens build it:
`{ from, text, sources }` (the `from` field is renamed `sender` since
`from` is reserved in Lean). -/
structure Message where
  sender : Sender
  text : String
  sources : List String
  deriving DecidableEq

/-- `{ from: "user", text: q }` (no sources field; JS leaves it undefined,
modelled as `[]`). -/
def mkUserMsg (q : String) : Message :=
  { sender := Sender.user, text := q, sources := [] }

/-- `{ from: "bot", text: answer, sources }`. -/
def mkBotMsg (answer : String) (sources : List String) : Message :=
  { sender := Sender.bot, text := answer, sources := sources }

/-- A stored session object, as pushed by `saveSession`. -/
structure Session where
  id : String
  userId : String
  feature : String
  title : String
  messages : List Message
  createdAt : Nat
  updatedAt : Nat
  deriving DecidableEq

/-- The raw contents of the `biogenie_chat_sessions` localStorage slot:
either a string that parses to a session array, or one that fails
`JSON.parse`. -/
inductive Raw where
  | good (sessions : List Session)
  | bad
  deriving DecidableEq

/-- The localStorage slot itself; `none` models a missing key. -/
abbrev Storage := Option Raw

/-- `getAllSessions`: read the slot, returning `[]` when the key is
missing or the contents fail to parse (the `try`/`catch` in source). -/
def getAllSessions : Storage → List Session
  | some (Raw.good sessions) => sessions
  | some Raw.bad => []
  | none => []

/-- `setAllSessions`: overwrite the slot with a (well-formed) session
array. -/
def setAllSessions (sessions : List Session) : Storage :=
  some (Raw.good sessions)

/-- Update the first element satisfying `p` (JS `findIndex` followed by an
in-place mutation of that element). -/
def updateFirst {α : Type} (p : α → Bool) (f : α → α) : List α → List α
  | [] => []
  | x :: xs => if p x then f x :: xs else x :: updateFirst p f xs

/-- `saveSession({ userId, feature, title, messages, sessionId })`.
Returns the resulting session id (JS return value) and the new storage
state.  `newId` is the value `uid()` would generate and `now` the current
time, both injected.  Faithful to source: a falsy `userId` returns `null`
without touching storage; with a `sessionId` whose session exists, that
session's title/messages/updatedAt are overwritten; with a `sessionId`
absent from the store nothing is written yet the id is still returned;
with no `sessionId` a fresh session is appended. -/
def saveSession (newId : String) (now : Nat) (userId : Option String)
    (feature title : String) (messages : List Message)
    (sessionId : Option String) (st : Storage) : Option String × Storage :=
  match userId with
  | none => (none, st)
  | some uid =>
    let all := getAllSessions st
    match sessionId with
    | some sid =>
      if all.any (fun s => decide (s.id = sid)) then
        (some sid,
         setAllSessions (updateFirst (fun s => decide (s.id = sid))
           (fun s => { s with title := title, messages := messages, updatedAt := now }) all))
      else
        (some sid, st)
    | none =>
      (some newId,
       setAllSessions (all ++
         [{ id := newId, userId := uid, feature := feature, title := title,
            messages := messages, createdAt := now, updatedAt := now }]))

/-- `loadSession(sessionId)`: first stored session with that id, `null`
when absent. -/
def loadSession (sessionId : String) (st : Storage) : Option Session :=
  (getAllSessions st).find? (fun s => decide (s.id = sessionId))

/-- Store effect of the sidebar's `deleteSession` handler:
`setAllSessions(getAllSessions().filter(s => s.id !== sessionId))`. -/
def deleteSession (sessionId : String) (st : Storage) : Storage :=
  setAllSessions ((getAllSessions st).filter (fun s => !decide (s.id = sessionId)))

/-- The sidebar's `refreshSessions` view: sessions of this feature and
user, sorted by `updatedAt` descending (stable, as JS `sort` is). -/
def listSessions (feature userId : String) (st : Storage) : List Session :=
  insertionSort (fun a b => decide (b.updatedAt ≤ a.updatedAt))
    ((getAllSessions st).filter
      (fun s => decide (s.feature = feature) && decide (s.userId = userId)))

/-! ## Orchestrator: `persistChat` / `sendQuestion` (DoubtSolver and the
other feature screens sharing the same shape) -/

/-- Predicate used by `persistChat`'s `filter(m => m.from === "user")`. -/
def isUserMsg (m : Message) : Bool :=
  decide (m.sender = Sender.user)

/-- The title expression of `persistChat`:
`userMsgs[0].text.slice(0, 60) + (userMsgs[0].text.length > 60 ? "…" : "")`. -/
def titleOf (t : String) : String :=
  String.mk (t.data.take 60) ++ (if 60 < t.length then "…" else "")

/-- `persistChat(updatedMessages, existingSessionId)`: bail out returning
`null` unless authenticated with a user id; bail out returning the
existing id when no user message exists; otherwise derive the title from
the first user message and call `saveSession`. -/
def persistChat (newId : String) (now : Nat) (isAuthenticated : Bool)
    (userId : Option String) (feature : String) (updatedMessages : List Message)
    (existingSessionId : Option String) (st : Storage) : Option String × Storage :=
  if !isAuthenticated || userId.isNone then (none, st)
  else
    match updatedMessages.filter isUserMsg with
    | [] => (existingSessionId, st)
    | m :: _ =>
      saveSession newId now userId feature (titleOf m.text) updatedMessages
        existingSessionId st

/-- One successful `sendQuestion` round against an already-loaded session:
the component's `messages` state equals the stored session's messages
(established by `handleSelectSession`), the fetch succeeds with
`answer`/`sources`, and `persistChat` writes
`[...messages, user, bot]` back under `sessionId`. -/
def appendExchange (newId : String) (now : Nat) (userId : Option String)
    (feature q answer : String) (sources : List String) (sid : String)
    (st : Storage) : Storage :=
  match loadSession sid st with
  | none => st
  | some s =>
    (persistChat newId now true userId feature
      (s.messages ++ [mkUserMsg q, mkBotMsg answer sources]) (some sid) st).2

/-- Component state of the DoubtSolver screen relevant to persistence. -/
structure DoubtState where
  messages : List Message
  sessionId : Option String
  storage : Storage
  deriving DecidableEq

/-- The catch-branch bot message of `sendQuestion`. -/
def serverErrorMsg : Message :=
  mkBotMsg "❌ Cannot reach the BioGenie server." []

/-- A full `sendQuestion` round with a successful fetch, parameterised by
whether the storage write succeeds (`persistOk = false` models
`localStorage.setItem` throwing, which lands in the same `catch` as a
fetch failure — but only after `setMessages(allMessages)` has already
displayed the answer). -/
def sendQuestionStep (newId : String) (now : Nat) (isAuthenticated : Bool)
    (userId : Option String) (q answer : String) (sources : List String)
    (persistOk : Bool) (st : DoubtState) : DoubtState :=
  let newMessages := st.messages ++ [mkUserMsg q]
  let allMessages := newMessages ++ [mkBotMsg answer sources]
  if persistOk then
    let r := persistChat newId now isAuthenticated userId "doubt" allMessages
      st.sessionId st.storage
    { messages := allMessages
      sessionId := match r.1 with | some i => some i | none => st.sessionId
      storage := r.2 }
  else
    { messages := allMessages ++ [serverErrorMsg]
      sessionId := st.sessionId
      storage := st.storage }

/-! ## Durable backend: `DoubtSolver.jsx` over Supabase
(`user_chats` / `chat_messages`) -/

/-- A `user_chats` row (ids as injected `Nat` surrogates for uuids). -/
structure UserChat where
  id : Nat
  user_id : String
  tool_name : String
  title : String
  created_at : Nat
  deriving DecidableEq

/-- A `chat_messages` row. -/
structure ChatMessageRow where
  chat_id : Nat
  sender : Sender
  text_content : String
  sources : List String
  created_at : Nat
  deriving DecidableEq

/-- The two chat-history tables. -/
structure SupaDB where
  user_chats : List UserChat
  chat_messages : List ChatMessageRow
  deriving DecidableEq

/-- The chat title in `DoubtSolver.jsx`:
`question.length > 30 ? question.substring(0, 30) + '...' : question`. -/
def dsTitle (q : String) : String :=
  if 30 < q.length then String.mk (q.data.take 30) ++ "..." else q

/-- Result of one Supabase-backed `sendQuestion` round. -/
structure DsResult where
  db : SupaDB
  currentChatId : Option Nat
  messages : List Message
  deriving DecidableEq

/-- One `sendQuestion` round of `DoubtSolver.jsx` with a successful fetch.
`createOk = false` models the `user_chats` insert returning `chatError`:
then `activeChatId` stays `null`, `setCurrentChatId` is never called, and
both `chat_messages` inserts are skipped by their
`isAuthenticated && activeChatId` guards. -/
def dsSendQuestion (newChatId : Nat) (now : Nat) (createOk : Bool)
    (isAuthenticated : Bool) (userId : Option String)
    (currentChatId : Option Nat) (messages : List Message)
    (q answer : String) (sources : List String) (db : SupaDB) : DsResult :=
  let created := isAuthenticated && userId.isSome && currentChatId.isNone && createOk
  let db1 : SupaDB :=
    if created then
      { db with user_chats := db.user_chats ++
          [{ id := newChatId, user_id := userId.getD "", tool_name := "Doubt Solver",
             title := dsTitle q, created_at := now }] }
    else db
  let activeChatId : Option Nat := if created then some newChatId else currentChatId
  let db2 : SupaDB :=
    match activeChatId with
    | some cid =>
      if isAuthenticated then
        { db1 with chat_messages := db1.chat_messages ++
            [{ chat_id := cid, sender := Sender.user, text_content := q,
               sources := [], created_at := now }] }
      else db1
    | none => db1
  let db3 : SupaDB :=
    match activeChatId with
    | some cid =>
      if isAuthenticated then
        { db2 with chat_messages := db2.chat_messages ++
            [{ chat_id := cid, sender := Sender.bot, text_content := answer,
               sources := sources, created_at := now }] }
      else db2
    | none => db2
  { db := db3
    currentChatId := if created then some newChatId else currentChatId
    messages := messages ++ [mkUserMsg q, mkBotMsg answer sources] }

/-- `loadChatSessions`: `user_chats` rows of this user with
`tool_name = 'Doubt Solver'`, ordered by `created_at` descending. -/
def loadChatSessions (userId : String) (db : SupaDB) : List UserChat :=
  insertionSort (fun a b => decide (b.created_at ≤ a.created_at))
    (db.user_chats.filter
      (fun c => decide (c.user_id = userId) && decide (c.tool_name = "Doubt Solver")))

/-! ## Concrete instances used by counterexamples and witnesses -/

/-- A degenerate distance function: every embedding is at distance 0 from
every other, so every similarity is 1. -/
def exDist : Unit → Unit → ℚ := fun _ _ => 0

/-- First sample chunk. -/
def exChunk1 : RagChunk Unit :=
  { id := 1, class_level := "10", chapter := "A", content_chunk := "x",
    embedding := (), source_pdf := "p1" }

/-- Second sample chunk, at the same distance from every query as the
first. -/
def exChunk2 : RagChunk Unit :=
  { id := 2, class_level := "10", chapter := "B", content_chunk := "y",
    embedding := (), source_pdf := "p2" }

/-- Sample table in insertion order. -/
def exTable : List (RagChunk Unit) := [exChunk1, exChunk2]

/-- The sample results in table order. -/
def exOut1 : List MatchResult :=
  [toMatchResult exDist () exChunk1, toMatchResult exDist () exChunk2]

/-- The sample results in the reversed order. -/
def exOut2 : List MatchResult :=
  [toMatchResult exDist () exChunk2, toMatchResult exDist () exChunk1]

/-- Sample stored user message. -/
def exMsg1 : Message := mkUserMsg "What is PCR?"

/-- Sample stored bot message with a source citation. -/
def exBot1 : Message := mkBotMsg "PCR amplifies DNA." ["Genetic Engineering p. 3"]

/-- A stored session as `saveSession` would create it. -/
def exSession : Session :=
  { id := "s1", userId := "u1", feature := "doubt", title := titleOf "What is PCR?",
    messages := [exMsg1, exBot1], createdAt := 1, updatedAt := 1 }

/-- A storage state holding exactly `exSession`. -/
def exStore : Storage := setAllSessions [exSession]

/-! ## General lemmas about the list operations -/

theorem mem_insertLe {α : Type} (le : α → α → Bool) (x a : α) (l : List α) :
    a ∈ insertLe le x l ↔ a = x ∨ a ∈ l := by
  induction l with
  | nil => simp [insertLe]
  | cons y ys ih =>
    by_cases h : le x y = true
    · simp [insertLe, h]
    · simp only [insertLe, h]
      rw [if_neg (by simp [h])]
      simp [List.mem_cons, ih]
      tauto

theorem mem_insertionSort {α : Type} (le : α → α → Bool) (a : α) (l : List α) :
    a ∈ insertionSort le l ↔ a ∈ l := by
  induction l with
  | nil => simp [insertionSort]
  | cons x xs ih => simp [insertionSort, mem_insertLe, ih]

theorem find?_updateFirst {α : Type} (p : α → Bool) (f : α → α)
    (hp : ∀ a, p (f a) = p a) (l : List α) :
    (updateFirst p f l).find? p = (l.find? p).map f := by
  induction l with
  | nil => simp [updateFirst]
  | cons x xs ih =>
    by_cases h : p x = true
    · simp [updateFirst, h, List.find?_cons, hp]
    · have h' : p x = false := by simp [h]
      simp [updateFirst, h', List.find?_cons, ih]

/-! ## Lemmas about `matchRel` -/

theorem matchRel_mem {α : Type} {dist : α → α → ℚ} {table : List (RagChunk α)}
    {q : α} {τ : ℚ} {K : Nat} {cls : Option String} {out : List MatchResult}
    (h : matchRel dist table q τ K cls out) {r : MatchResult} (hr : r ∈ out) :
    ∃ c : RagChunk α,
      c ∈ table.filter (rowEligible dist q τ cls) ∧ r = toMatchResult dist q c := by
  obtain ⟨l, hperm, hsort, rfl⟩ := h
  obtain ⟨c, hc, rfl⟩ := List.mem_map.1 hr
  exact ⟨c, hperm.mem_iff.2 (List.take_subset _ _ hc), rfl⟩

theorem exTable_filter : exTable.filter (rowEligible exDist () 0 none) = exTable := by
  simp [exTable, rowEligible, exDist]

theorem exTable_filter_some :
    exTable.filter (rowEligible exDist () 0 (some "10")) = exTable := by
  simp [exTable, rowEligible, exDist, exChunk1, exChunk2]

theorem exSorted : sortedByDist exDist () [exChunk1, exChunk2] := by
  simp [sortedByDist, exDist]

theorem exMatchRel1 : matchRel exDist exTable () 0 2 none exOut1 :=
  ⟨[exChunk1, exChunk2], by rw [exTable_filter]; exact List.Perm.refl _, exSorted, rfl⟩

theorem exMatchRel1some : matchRel exDist exTable () 0 2 (some "10") exOut1 :=
  ⟨[exChunk1, exChunk2], by rw [exTable_filter_some]; exact List.Perm.refl _, exSorted, rfl⟩

theorem exMatchRel2 : matchRel exDist exTable () 0 2 none exOut2 :=
  ⟨[exChunk2, exChunk1], by rw [exTable_filter]; exact List.Perm.swap exChunk2 exChunk1 [],
    by simp [sortedByDist, exDist], rfl⟩

/-! ## C1 -/

/-- C1: every result of a similarity search has similarity strictly
greater than the threshold (a chunk at exactly the threshold is
excluded), and when every corpus similarity is at most 0.70 and the
threshold is 0.75 the result list is empty. -/
theorem C1_similarity_strictly_above_threshold :
    (∀ (α : Type) (dist : α → α → ℚ) (table : List (RagChunk α)) (q : α) (τ : ℚ)
        (K : Nat) (cls : Option String) (out : List MatchResult),
        matchRel dist table q τ K cls out → ∀ r ∈ out, τ < r.similarity) ∧
    (∀ (α : Type) (dist : α → α → ℚ) (table : List (RagChunk α)) (q : α)
        (K : Nat) (cls : Option String) (out : List MatchResult),
        (∀ c ∈ table, 1 - dist c.embedding q ≤ 7/10) →
        matchRel dist table q (3/4) K cls out → out = []) := by
  constructor
  · intro α dist table q τ K cls out h r hr
    obtain ⟨c, hc, rfl⟩ := matchRel_mem h hr
    have he := (List.mem_filter.1 hc).2
    simp only [rowEligible, Bool.and_eq_true, decide_eq_true_eq] at he
    exact he.1
  · intro α dist table q K cls out hlow h
    obtain ⟨l, hperm, hsort, rfl⟩ := h
    have hfil : table.filter (rowEligible dist q (3/4) cls) = [] := by
      apply List.filter_eq_nil_iff.2
      intro c hc hcontra
      simp only [rowEligible, Bool.and_eq_true, decide_eq_true_eq] at hcontra
      have := hlow c hc
      linarith [hcontra.1]
    rw [hfil] at hperm
    have hl : l = [] := hperm.symm.eq_nil
    subst hl
    simp

/-- Witness for C1 at concrete inputs. -/
theorem C1_witness :
    (0:ℚ) < (toMatchResult exDist () exChunk1).similarity ∧
    ([] : List MatchResult) = [] := by
  constructor
  · exact C1_similarity_strictly_above_threshold.1 Unit exDist exTable () 0 2 none
      exOut1 exMatchRel1 (toMatchResult exDist () exChunk1) (by simp [exOut1])
  · exact C1_similarity_strictly_above_threshold.2 Unit exDist [] () 2 none []
      (by simp) ⟨[], List.Perm.nil, List.Pairwise.nil, rfl⟩

/-! ## C2 -/

/-- C2: with a category filter every returned chunk's category equals the
filter; with no filter every chunk above the threshold is eligible
regardless of category; and the result list never exceeds the requested
cap. -/
theorem C2_category_filter_and_cap :
    (∀ (α : Type) (dist : α → α → ℚ) (table : List (RagChunk α)) (q : α) (τ : ℚ)
        (K : Nat) (p : String) (out : List MatchResult),
        matchRel dist table q τ K (some p) out → ∀ r ∈ out, r.class_level = p) ∧
    (∀ (α : Type) (dist : α → α → ℚ) (table : List (RagChunk α)) (q : α) (τ : ℚ)
        (K : Nat) (cls : Option String) (out : List MatchResult),
        matchRel dist table q τ K cls out → out.length ≤ K) ∧
    (∀ (α : Type) (dist : α → α → ℚ) (table : List (RagChunk α)) (q : α) (τ : ℚ)
        (c : RagChunk α), c ∈ table → τ < 1 - dist c.embedding q →
        c ∈ table.filter (rowEligible dist q τ none)) := by
  refine ⟨?_, ?_, ?_⟩
  · intro α dist table q τ K p out h r hr
    obtain ⟨c, hc, rfl⟩ := matchRel_mem h hr
    have he := (List.mem_filter.1 hc).2
    simp only [rowEligible, Bool.and_eq_true, decide_eq_true_eq] at he
    exact he.2
  · intro α dist table q τ K cls out h
    obtain ⟨l, hperm, hsort, rfl⟩ := h
    simp
  · intro α dist table q τ c hc hlt
    refine List.mem_filter.2 ⟨hc, ?_⟩
    simp [rowEligible, hlt]

/-- Witness for C2 at concrete inputs. -/
theorem C2_witness :
    (toMatchResult exDist () exChunk1).class_level = "10" ∧
    exOut1.length ≤ 2 ∧
    exChunk1 ∈ exTable.filter (rowEligible exDist () 0 none) := by
  refine ⟨?_, ?_, ?_⟩
  · exact C2_category_filter_and_cap.1 Unit exDist exTable () 0 2 "10" exOut1
      exMatchRel1some (toMatchResult exDist () exChunk1) (by simp [exOut1])
  · exact C2_category_filter_and_cap.2.1 Unit exDist exTable () 0 2 none exOut1
      exMatchRel1
  · exact C2_category_filter_and_cap.2.2 Unit exDist exTable () 0 exChunk1
      (by simp [exTable]) (by simp [exDist])

/-! ## C8 -/

/-- C8 counterexample: with two chunks at equal distance, the SQL
`order by` (which sorts on distance only, with no tiebreak) permits both
the insertion-order output and the reversed output, so tie order is not
the stable insertion order and repeated identical calls are not
guaranteed to reproduce one ordering. -/
theorem C8_counterexample :
    matchRel exDist exTable () 0 2 none exOut1 ∧
    matchRel exDist exTable () 0 2 none exOut2 ∧
    exOut1 ≠ exOut2 :=
  ⟨exMatchRel1, exMatchRel2, by
    simp [exOut1, exOut2, toMatchResult, exChunk1, exChunk2]⟩

/-- C8 as amended: every permissible output of the similarity search is
ordered by descending similarity; the relative order of equal-similarity
results is left open by the function. -/
theorem C8_descending_similarity :
    ∀ (α : Type) (dist : α → α → ℚ) (table : List (RagChunk α)) (q : α) (τ : ℚ)
      (K : Nat) (cls : Option String) (out : List MatchResult),
      matchRel dist table q τ K cls out →
      out.Pairwise (fun r1 r2 => r2.similarity ≤ r1.similarity) := by
  intro α dist table q τ K cls out h
  obtain ⟨l, hperm, hsort, rfl⟩ := h
  rw [List.pairwise_map]
  refine (hsort.sublist (List.take_sublist K l)).imp ?_
  intro a b hab
  simp only [toMatchResult]
  linarith

/-- Witness for the amended C8 at concrete inputs. -/
theorem C8_descending_similarity_witness :
    exOut1.Pairwise (fun r1 r2 => r2.similarity ≤ r1.similarity) :=
  C8_descending_similarity Unit exDist exTable () 0 2 none exOut1 exMatchRel1

/-! ## Lemmas about the session store -/

theorem filter_isUserMsg_append (ms : List Message) (q answer : String)
    (sources : List String) :
    (ms ++ [mkUserMsg q, mkBotMsg answer sources]).filter isUserMsg =
      ms.filter isUserMsg ++ [mkUserMsg q] := by
  simp [List.filter_append, isUserMsg, mkUserMsg, mkBotMsg]

theorem saveSession_update (newId : String) (now : Nat) (u : String)
    (feature title : String) (messages : List Message) (sid : String) (st : Storage)
    (s : Session) (h : loadSession sid st = some s) :
    saveSession newId now (some u) feature title messages (some sid) st =
      (some sid,
       setAllSessions (updateFirst (fun x => decide (x.id = sid))
         (fun x => { x with title := title, messages := messages, updatedAt := now })
         (getAllSessions st))) := by
  have hmem := List.mem_of_find?_eq_some h
  have hps := List.find?_some h
  have hany : (getAllSessions st).any (fun x => decide (x.id = sid)) = true :=
    List.any_eq_true.2 ⟨s, hmem, hps⟩
  simp [saveSession, hany]

theorem loadSession_update (now : Nat) (title : String) (messages : List Message)
    (sid : String) (st : Storage) :
    loadSession sid (setAllSessions (updateFirst (fun x => decide (x.id = sid))
        (fun x => { x with title := title, messages := messages, updatedAt := now })
        (getAllSessions st))) =
      (loadSession sid st).map
        (fun x => { x with title := title, messages := messages, updatedAt := now }) := by
  unfold loadSession
  exact find?_updateFirst (fun x => decide (x.id = sid))
    (fun x => { x with title := title, messages := messages, updatedAt := now })
    (fun _ => rfl) (getAllSessions st)

theorem persistChat_existing (newId : String) (now : Nat) (u : String)
    (feature : String) (msgs : List Message) (m0 : Message) (rest : List Message)
    (sid : String) (st : Storage) (s : Session)
    (h : loadSession sid st = some s) (hm : msgs.filter isUserMsg = m0 :: rest) :
    persistChat newId now true (some u) feature msgs (some sid) st =
      (some sid,
       setAllSessions (updateFirst (fun x => decide (x.id = sid))
         (fun x => { x with title := titleOf m0.text, messages := msgs, updatedAt := now })
         (getAllSessions st))) := by
  have hstep : persistChat newId now true (some u) feature msgs (some sid) st =
      saveSession newId now (some u) feature (titleOf m0.text) msgs (some sid) st := by
    unfold persistChat
    rw [hm]
    rfl
  rw [hstep]
  exact saveSession_update newId now u feature (titleOf m0.text) msgs sid st s h

theorem loadSession_appendExchange (newId : String) (now : Nat) (u : String)
    (feature q answer : String) (sources : List String) (sid : String) (st : Storage)
    (s : Session) (m0 : Message) (rest : List Message)
    (h : loadSession sid st = some s)
    (hm : (s.messages ++ [mkUserMsg q, mkBotMsg answer sources]).filter isUserMsg
        = m0 :: rest) :
    loadSession sid (appendExchange newId now (some u) feature q answer sources sid st) =
      some { s with title := titleOf m0.text,
                    messages := s.messages ++ [mkUserMsg q, mkBotMsg answer sources],
                    updatedAt := now } := by
  unfold appendExchange
  rw [h]
  show loadSession sid
      (persistChat newId now true (some u) feature
        (s.messages ++ [mkUserMsg q, mkBotMsg answer sources]) (some sid) st).2 = _
  rw [persistChat_existing newId now u feature _ m0 rest sid st s h hm]
  show loadSession sid
      (setAllSessions (updateFirst (fun x => decide (x.id = sid))
        (fun x => { x with
                    title := titleOf m0.text,
                    messages := s.messages ++ [mkUserMsg q, mkBotMsg answer sources],
                    updatedAt := now })
        (getAllSessions st))) = _
  rw [loadSession_update, h]
  rfl

/-! ## C3 -/

/-- C3: the derived title is the first 60 characters of the first user
message, with the truncation marker appended exactly when that message
exceeds 60 characters (length at most 61); the title a created session
stores is derived from its first user message, and a later append to the
same session leaves the stored title unchanged. -/
theorem C3_title_derivation :
    (∀ t : String, (titleOf t).length ≤ 61 ∧
      (t.length ≤ 60 → titleOf t = t) ∧
      (60 < t.length → (titleOf t).length = 61)) ∧
    (∀ (newId : String) (now : Nat) (u feature : String) (msgs : List Message)
        (m0 : Message) (rest : List Message) (st : Storage),
        msgs.filter isUserMsg = m0 :: rest →
        (∀ s ∈ getAllSessions st, s.id ≠ newId) →
        loadSession newId (persistChat newId now true (some u) feature msgs none st).2 =
          some { id := newId, userId := u, feature := feature,
                 title := titleOf m0.text, messages := msgs,
                 createdAt := now, updatedAt := now }) ∧
    (∀ (newId : String) (now : Nat) (u feature q answer : String)
        (sources : List String) (sid : String) (st : Storage) (s : Session)
        (m0 : Message) (rest : List Message),
        loadSession sid st = some s →
        s.messages.filter isUserMsg = m0 :: rest →
        s.title = titleOf m0.text →
        loadSession sid
            (appendExchange newId now (some u) feature q answer sources sid st) =
          some { s with
                 messages := s.messages ++ [mkUserMsg q, mkBotMsg answer sources],
                 updatedAt := now }) := by
  refine ⟨?_, ?_, ?_⟩
  · intro t
    refine ⟨?_, ?_, ?_⟩
    · simp only [titleOf, String.length_append]
      have h1 : (String.mk (t.data.take 60)).length ≤ 60 := by
        show (t.data.take 60).length ≤ 60
        rw [List.length_take]
        omega
      have h2 : (if 60 < t.length then ("…" : String) else "").length ≤ 1 := by
        by_cases h : 60 < t.length
        · rw [if_pos h]
          exact le_of_eq rfl
        · rw [if_neg h]
          exact Nat.zero_le 1
      omega
    · intro hle
      simp only [titleOf, if_neg (by omega : ¬ 60 < t.length)]
      have htake : t.data.take 60 = t.data := List.take_of_length_le hle
      rw [htake]
      simp
    · intro hgt
      simp only [titleOf, if_pos hgt, String.length_append]
      have h1 : (String.mk (t.data.take 60)).length = 60 := by
        show (t.data.take 60).length = 60
        have hgt' : 60 < t.data.length := hgt
        rw [List.length_take]
        omega
      rw [h1]
      rfl
  · intro newId now u feature msgs m0 rest st hm hfresh
    have hstep : persistChat newId now true (some u) feature msgs none st =
        (some newId, setAllSessions (getAllSessions st ++
          [{ id := newId, userId := u, feature := feature,
             title := titleOf m0.text, messages := msgs,
             createdAt := now, updatedAt := now }])) := by
      unfold persistChat
      rw [hm]
      rfl
    rw [hstep]
    have hnone : (getAllSessions st).find? (fun x => decide (x.id = newId)) = none :=
      List.find?_eq_none.2 (fun x hx => by simp [hfresh x hx])
    show (getAllSessions st ++
        [({ id := newId, userId := u, feature := feature, title := titleOf m0.text,
            messages := msgs, createdAt := now, updatedAt := now } : Session)]).find?
        (fun x => decide (x.id = newId)) = _
    rw [List.find?_append, hnone]
    simp
  · intro newId now u feature q answer sources sid st s m0 rest h hm htitle
    have hm' : (s.messages ++ [mkUserMsg q, mkBotMsg answer sources]).filter isUserMsg
        = m0 :: (rest ++ [mkUserMsg q]) := by
      rw [filter_isUserMsg_append, hm]
      rfl
    rw [loadSession_appendExchange newId now u feature q answer sources sid st s m0 _
      h hm']
    rw [← htitle]

/-- Witness for C3 at concrete inputs. -/
theorem C3_witness :
    (titleOf "What is PCR?").length ≤ 61 ∧
    loadSession "n1"
        (persistChat "n1" 7 true (some "u1") "doubt" [exMsg1, exBot1] none
          (setAllSessions [])).2 =
      some { id := "n1", userId := "u1", feature := "doubt",
             title := titleOf exMsg1.text, messages := [exMsg1, exBot1],
             createdAt := 7, updatedAt := 7 } ∧
    loadSession "s1"
        (appendExchange "n2" 9 (some "u1") "doubt" "q" "a" ["cite"] "s1" exStore) =
      some { exSession with
             messages := exSession.messages ++ [mkUserMsg "q", mkBotMsg "a" ["cite"]],
             updatedAt := 9 } := by
  refine ⟨(C3_title_derivation.1 "What is PCR?").1, ?_, ?_⟩
  · exact C3_title_derivation.2.1 "n1" 7 "u1" "doubt" [exMsg1, exBot1] exMsg1 []
      (setAllSessions []) rfl (by simp [getAllSessions, setAllSessions])
  · exact C3_title_derivation.2.2 "n2" 9 "u1" "doubt" "q" "a" ["cite"] "s1" exStore
      exSession exMsg1 [] rfl rfl rfl

/-! ## C5 -/

/-- C5: an appended exchange round-trips through the store — after one
`sendQuestion` round the stored session ends with the user message and
the bot message, citations intact, and two sequential rounds on the same
session id append exactly the four messages user, bot, user, bot in call
order. -/
theorem C5_append_roundtrip :
    ∀ (n1 n2 : String) (t1 t2 : Nat) (u feature q1 a1 q2 a2 : String)
      (src1 src2 : List String) (sid : String) (st : Storage) (s : Session),
      loadSession sid st = some s →
      ∃ s2 : Session,
        loadSession sid
            (appendExchange n2 t2 (some u) feature q2 a2 src2 sid
              (appendExchange n1 t1 (some u) feature q1 a1 src1 sid st)) = some s2 ∧
        s2.messages = s.messages ++
          [mkUserMsg q1, mkBotMsg a1 src1, mkUserMsg q2, mkBotMsg a2 src2] ∧
        (s2.messages.drop s.messages.length).map Message.sender =
          [Sender.user, Sender.bot, Sender.user, Sender.bot] ∧
        (s2.messages.drop s.messages.length).map Message.sources =
          [[], src1, [], src2] := by
  intro n1 n2 t1 t2 u feature q1 a1 q2 a2 src1 src2 sid st s h
  obtain ⟨m1, r1, hm1'⟩ := List.exists_cons_of_ne_nil
    (l := s.messages.filter isUserMsg ++ [mkUserMsg q1]) (by simp)
  have hm1 : (s.messages ++ [mkUserMsg q1, mkBotMsg a1 src1]).filter isUserMsg
      = m1 :: r1 := by
    rw [filter_isUserMsg_append]
    exact hm1'
  have h1 := loadSession_appendExchange n1 t1 u feature q1 a1 src1 sid st s m1 r1 h hm1
  set s1 : Session :=
    { s with
      title := titleOf m1.text,
      messages := s.messages ++ [mkUserMsg q1, mkBotMsg a1 src1],
      updatedAt := t1 } with hs1
  obtain ⟨m2, r2, hm2'⟩ := List.exists_cons_of_ne_nil
    (l := s1.messages.filter isUserMsg ++ [mkUserMsg q2]) (by simp)
  have hm2 : (s1.messages ++ [mkUserMsg q2, mkBotMsg a2 src2]).filter isUserMsg
      = m2 :: r2 := by
    rw [filter_isUserMsg_append]
    exact hm2'
  have h2 := loadSession_appendExchange n2 t2 u feature q2 a2 src2 sid _ s1 m2 r2 h1 hm2
  have hmsgs : ({ s1 with
      title := titleOf m2.text,
      messages := s1.messages ++ [mkUserMsg q2, mkBotMsg a2 src2],
      updatedAt := t2 } : Session).messages =
      s.messages ++ [mkUserMsg q1, mkBotMsg a1 src1, mkUserMsg q2, mkBotMsg a2 src2] := by
    show s1.messages ++ [mkUserMsg q2, mkBotMsg a2 src2] = _
    rw [hs1]
    show (s.messages ++ [mkUserMsg q1, mkBotMsg a1 src1]) ++ _ = _
    rw [List.append_assoc]
    rfl
  refine ⟨_, h2, hmsgs, ?_, ?_⟩
  · rw [hmsgs]
    rw [List.drop_left]
    rfl
  · rw [hmsgs]
    rw [List.drop_left]
    rfl

/-- Witness for C5 at concrete inputs. -/
theorem C5_witness :
    ∃ s2 : Session,
      loadSession "s1"
          (appendExchange "n2" 3 (some "u1") "doubt" "q2" "a2" ["c2"] "s1"
            (appendExchange "n1" 2 (some "u1") "doubt" "q1" "a1" ["c1"] "s1" exStore)) =
        some s2 ∧
      s2.messages = exSession.messages ++
        [mkUserMsg "q1", mkBotMsg "a1" ["c1"], mkUserMsg "q2", mkBotMsg "a2" ["c2"]] ∧
      (s2.messages.drop exSession.messages.length).map Message.sender =
        [Sender.user, Sender.bot, Sender.user, Sender.bot] ∧
      (s2.messages.drop exSession.messages.length).map Message.sources =
        [[], ["c1"], [], ["c2"]] :=
  C5_append_roundtrip "n1" "n2" 2 3 "u1" "doubt" "q1" "a1" "q2" "a2" ["c1"] ["c2"]
    "s1" exStore exSession rfl

/-! ## C6 -/

/-- C6: whether or not the persistence write succeeds, the displayed
conversation after a `sendQuestion` round still contains the produced
answer — on persistence failure the exchange is kept (with an appended
error message), never rolled back or hidden. -/
theorem C6_answer_survives_persist_failure :
    ∀ (newId : String) (now : Nat) (isAuth : Bool) (userId : Option String)
      (q answer : String) (sources : List String) (persistOk : Bool) (st : DoubtState),
      (sendQuestionStep newId now isAuth userId q answer sources persistOk st).messages =
        st.messages ++ [mkUserMsg q, mkBotMsg answer sources] ++
          (if persistOk then [] else [serverErrorMsg]) ∧
      mkBotMsg answer sources ∈
        (sendQuestionStep newId now isAuth userId q answer sources persistOk st).messages := by
  intro newId now isAuth userId q answer sources persistOk st
  constructor
  · cases persistOk <;> simp [sendQuestionStep]
  · cases persistOk <;> simp [sendQuestionStep]

/-! ## C7 -/

/-- C7: after `deleteSession(id)`, `loadSession(id)` reports not-found and
the sidebar's session list no longer includes `id`; deleting an id that
is absent leaves the stored session list unchanged. -/
theorem C7_delete_session :
    ∀ (sid : String) (st : Storage),
      loadSession sid (deleteSession sid st) = none ∧
      (∀ feature u : String,
        sid ∉ (listSessions feature u (deleteSession sid st)).map Session.id) ∧
      ((∀ s ∈ getAllSessions st, s.id ≠ sid) →
        getAllSessions (deleteSession sid st) = getAllSessions st) := by
  intro sid st
  refine ⟨?_, ?_, ?_⟩
  · refine List.find?_eq_none.2 ?_
    intro x hx
    have hxne := (List.mem_filter.1 hx).2
    simp only [Bool.not_eq_true', decide_eq_false_iff_not] at hxne
    simp [hxne]
  · intro feature u hmem
    rw [List.mem_map] at hmem
    obtain ⟨x, hx, hid⟩ := hmem
    have hx1 : x ∈ (getAllSessions (deleteSession sid st)).filter
        (fun s => decide (s.feature = feature) && decide (s.userId = u)) :=
      (mem_insertionSort _ _ _).1 hx
    have hx2 := (List.mem_filter.1 hx1).1
    have hx3 := (List.mem_filter.1 (hx2 :
      x ∈ (getAllSessions st).filter (fun s => !decide (s.id = sid)))).2
    simp only [Bool.not_eq_true', decide_eq_false_iff_not] at hx3
    exact hx3 hid
  · intro h
    refine List.filter_eq_self.2 ?_
    intro x hx
    simp [h x hx]

/-- Witness for C7 at concrete inputs. -/
theorem C7_witness :
    loadSession "s1" (deleteSession "s1" exStore) = none ∧
    getAllSessions (deleteSession "zz" exStore) = getAllSessions exStore :=
  ⟨(C7_delete_session "s1" exStore).1,
   (C7_delete_session "zz" exStore).2.2 (by decide)⟩

/-! ## C10 -/

/-- C10: ephemeral-store reads are total — `getAllSessions` returns `[]`
when the backing storage is missing or fails to parse, and `loadSession`
returns null for any id not present in the store. -/
theorem C10_reads_total :
    getAllSessions none = [] ∧
    getAllSessions (some Raw.bad) = [] ∧
    ∀ (sid : String) (st : Storage),
      (∀ s ∈ getAllSessions st, s.id ≠ sid) → loadSession sid st = none := by
  refine ⟨rfl, rfl, ?_⟩
  intro sid st h
  refine List.find?_eq_none.2 ?_
  intro x hx
  simp [h x hx]

/-- Witness for C10 at concrete inputs. -/
theorem C10_witness : loadSession "zz" exStore = none :=
  C10_reads_total.2.2 "zz" exStore (by decide)

/-! ## C4 -/

/-- C4 counterexample: a guest (ownerless) `saveSession` call returns
null and persists nothing — the guest exchange does NOT appear in the
ephemeral store afterwards, contrary to the claim that it is persisted
there. -/
theorem C4_counterexample :
    (saveSession "n1" 0 none "doubt" "t" [mkUserMsg "hi"] none
      (setAllSessions [])).1 = none ∧
    ¬ ∃ s ∈ getAllSessions
        (saveSession "n1" 0 none "doubt" "t" [mkUserMsg "hi"] none
          (setAllSessions [])).2,
        mkUserMsg "hi" ∈ s.messages := by
  constructor
  · rfl
  · rintro ⟨s, hs, -⟩
    simp [saveSession, setAllSessions, getAllSessions] at hs

theorem dsGuest_db (newChatId now : Nat) (createOk : Bool) (userId : Option String)
    (currentChatId : Option Nat) (messages : List Message) (q answer : String)
    (sources : List String) (db : SupaDB) :
    (dsSendQuestion newChatId now createOk false userId currentChatId messages
      q answer sources db).db = db := by
  cases currentChatId <;> simp [dsSendQuestion]

/-- C4 as amended: a session-store operation invoked without an owner is
a no-op on persistence — `saveSession` returns null and leaves the
ephemeral store untouched (the guest exchange is persisted nowhere), and
the guest orchestrator path writes nothing to the durable store, whose
per-owner session list therefore shows no trace of the guest exchange. -/
theorem C4_guest_operations_are_noops :
    (∀ (newId : String) (now : Nat) (feature title : String) (msgs : List Message)
        (sid : Option String) (st : Storage),
        saveSession newId now none feature title msgs sid st = (none, st)) ∧
    (∀ (newChatId now : Nat) (createOk : Bool) (userId : Option String)
        (currentChatId : Option Nat) (messages : List Message) (q answer : String)
        (sources : List String) (db : SupaDB),
        (dsSendQuestion newChatId now createOk false userId currentChatId messages
          q answer sources db).db = db) ∧
    (∀ (newChatId now : Nat) (createOk : Bool) (userId : Option String)
        (currentChatId : Option Nat) (messages : List Message) (q answer : String)
        (sources : List String) (db : SupaDB) (owner : String),
        loadChatSessions owner
          ((dsSendQuestion newChatId now createOk false userId currentChatId messages
            q answer sources db).db) = loadChatSessions owner db) := by
  refine ⟨fun _ _ _ _ _ _ _ => rfl, dsGuest_db, ?_⟩
  intro newChatId now createOk userId currentChatId messages q answer sources db owner
  rw [dsGuest_db]

/-! ## C9 -/

/-- C9 counterexample: on the local-store path, an append naming a
session id absent from the store is a silent no-op that still reports the
phantom id — the store stays empty, so creation is NOT retried on that
append, contrary to the claim. -/
theorem C9_counterexample :
    (persistChat "n1" 5 true (some "u1") "doubt" [mkUserMsg "hi", mkBotMsg "ans" []]
        (some "ghost") (setAllSessions [])).1 = some "ghost" ∧
    getAllSessions (persistChat "n1" 5 true (some "u1") "doubt"
        [mkUserMsg "hi", mkBotMsg "ans" []] (some "ghost") (setAllSessions [])).2 = [] := by
  constructor <;> rfl

/-- C9 as amended: on the durable (Supabase) path a failed creation
leaves the active chat id unset and writes nothing, so the next send
retries creation (and then succeeds, recording the chat); on the
local-store path, however, an append naming an id absent from the store
leaves the store unchanged instead of retrying creation. -/
theorem C9_creation_retry :
    (∀ (newChatId now : Nat) (u : String) (messages : List Message) (q answer : String)
        (sources : List String) (db : SupaDB),
        (dsSendQuestion newChatId now false true (some u) none messages
          q answer sources db).currentChatId = none ∧
        (dsSendQuestion newChatId now false true (some u) none messages
          q answer sources db).db = db) ∧
    (∀ (newChatId now : Nat) (u : String) (messages : List Message) (q answer : String)
        (sources : List String) (db : SupaDB),
        (dsSendQuestion newChatId now true true (some u) none messages
          q answer sources db).currentChatId = some newChatId ∧
        ({ id := newChatId, user_id := u, tool_name := "Doubt Solver",
           title := dsTitle q, created_at := now } : UserChat) ∈
          (dsSendQuestion newChatId now true true (some u) none messages
            q answer sources db).db.user_chats) ∧
    (∀ (newId : String) (now : Nat) (u feature : String) (msgs : List Message)
        (sid : String) (st : Storage),
        (∀ s ∈ getAllSessions st, s.id ≠ sid) →
        (persistChat newId now true (some u) feature msgs (some sid) st).2 = st) := by
  refine ⟨?_, ?_, ?_⟩
  · intro newChatId now u messages q answer sources db
    exact ⟨rfl, rfl⟩
  · intro newChatId now u messages q answer sources db
    constructor
    · rfl
    · simp [dsSendQuestion]
  · intro newId now u feature msgs sid st h
    have hany : (getAllSessions st).any (fun x => decide (x.id = sid)) = false := by
      rw [List.any_eq_false]
      intro x hx
      simp [h x hx]
    unfold persistChat
    cases hm : msgs.filter isUserMsg with
    | nil => rfl
    | cons m r => simp [saveSession, hany]

/-- Witness for the amended C9 at concrete inputs. -/
theorem C9_witness :
    (persistChat "n9" 4 true (some "u1") "doubt" [mkUserMsg "x"] (some "zz")
      exStore).2 = exStore :=
  C9_creation_retry.2.2 "n9" 4 "u1" "doubt" [mkUserMsg "x"] "zz" exStore (by decide)

end BioGenie
